import Mathlib

/-!
Shallow embedding of the DynamoDB utility dashboard (src/app.py) and proofs
of the spec's testable properties.  The table store is modelled as a list of
items; each core function of the dashboard (`create_table`, `insert_records`,
`fetch_records`, the `query_record_ui` workflow) is embedded as a pure
function, with the external store's success/failure supplied as an explicit
parameter where the Python code wraps a call in try/except.
-/

namespace App

/-- Decimal digit character, as produced by Python's `str` (code point 48+d). -/
def digitChar (d : Nat) : Char := Char.ofNat (48 + d)

/-- Fuel-indexed decimal rendering of a natural number, most significant digit
first: the digits of `n / 10` followed by the digit `n % 10`.  Models Python's
`str(n)` for nonnegative `n`. -/
def natDigitsAux : Nat → Nat → List Char
  | 0, _ => []
  | fuel + 1, n =>
    if n < 10 then [digitChar n]
    else natDigitsAux fuel (n / 10) ++ [digitChar (n % 10)]

/-- Python's `str(n)` for a nonnegative integer: decimal, no leading zeros. -/
def natStr (n : Nat) : String := ⟨natDigitsAux (n + 1) n⟩

/-- Reads a digit string back as a number (left fold, base 10). -/
def parseDigitsList (cs : List Char) : Nat :=
  cs.foldl (fun a c => a * 10 + (c.toNat - 48)) 0

/-- A record of the table, as generated by `insert_records` in src/app.py:
attributes `date`, `id`, `factory_name`, `metric` (strings) and `value`
(integer). -/
structure Item where
  date : String
  id : String
  factory_name : String
  metric : String
  value : Nat
deriving DecidableEq, Repr, Inhabited

/-- The date string of the record at 0-based index `i`:
`f"2025-11-{10+i}"` in src/app.py line 120. -/
def genDate (i : Nat) : String := "2025-11-" ++ natStr (10 + i)

/-- The record at 0-based index `i` of the generated batch
(src/app.py lines 119-125). -/
def genItem (i : Nat) : Item :=
  { date := genDate i
    id := natStr (i + 1)
    factory_name := "Factory_" ++ natStr (i % 3 + 1)
    metric := "Metric_" ++ natStr (i + 1)
    value := i * 10 }

/-- The batch of `n` records generated by `insert_records(name, n)`
(the loop `for i in range(num_rows)` in src/app.py lines 118-126). -/
def genBatch (n : Nat) : List Item := (List.range n).map genItem

/-- A table's contents; scan order is store-defined, modelled as list order. -/
abbrev Table := List Item

/-- DynamoDB `put_item`: replaces any existing item with the same composite
key `(date, id)`, then the item is present. -/
def putItem (t : Table) (it : Item) : Table :=
  t.filter (fun r => !(r.date == it.date && r.id == it.id)) ++ [it]

/-- `insert_records` writing the generated batch through the batch writer
(src/app.py lines 117-126): successive `put_item` calls for indices
`0, ..., n-1`. -/
def insert_records_table (t : Table) (n : Nat) : Table :=
  (List.range n).foldl (fun acc i => putItem acc (genItem i)) t

/-- `table.scan()` with no filter: every record of the table
(src/app.py line 139). -/
def scan (t : Table) : List Item := t

/-- `table.get_item(Key={"date": d, "id": i})`: the single record with the
full composite key, if present (src/app.py line 176). -/
def getItem (t : Table) (d i : String) : Option Item :=
  t.find? (fun r => r.date == d && r.id == i)

/-- `listPartitionKeys`: `sorted({item["date"] for item in ...})` in
src/app.py line 165 — the distinct `date` values, duplicates removed,
sorted ascending (lexicographic on strings). -/
def listPartitionKeys (t : Table) : List String :=
  List.insertionSort (fun a b => a ≤ b) ((t.map (fun r => r.date)).dedup)

/-- `listSortKeysForPartition`: the `id` values of the records returned by
`table.query(KeyConditionExpression=Key("date").eq(d))`
(src/app.py line 171). -/
def listSortKeys (t : Table) (d : String) : List String :=
  (t.filter (fun r => r.date == d)).map (fun r => r.id)

/-- Result of an external store call: success, or an exception with a
message (caught by the `except` branches in src/app.py). -/
inductive StoreResult where
  | ok : StoreResult
  | err : String → StoreResult
deriving DecidableEq, Repr

/-- Outcome of the `create_table` action (src/app.py lines 88-111). -/
inductive CreateOutcome where
  | created : CreateOutcome
  | alreadyExists : CreateOutcome
deriving DecidableEq, Repr

/-- `create_table(table_name)` against the list of existing table names:
if the name is already present it warns and returns without issuing the
creation; otherwise it creates the table (src/app.py lines 90-106). -/
def create_table (tables : List String) (name : String) :
    List String × CreateOutcome :=
  if name ∈ tables then (tables, CreateOutcome.alreadyExists)
  else (tables ++ [name], CreateOutcome.created)

/-- Outcome of `fetch_records` (src/app.py lines 135-151): an error message
from the except branch, `empty` when the scan returned no items
(`st.info("No records found.")`), or the data. -/
inductive FetchOutcome where
  | error : String → FetchOutcome
  | empty : FetchOutcome
  | data : List Item → FetchOutcome
deriving DecidableEq, Repr

/-- `fetch_records(table_name)`: scans the table; reports "No records found"
when empty, the data otherwise, an error only when the store call raised. -/
def fetch_records (t : Table) (s : StoreResult) : FetchOutcome :=
  match s with
  | StoreResult.err e => FetchOutcome.error e
  | StoreResult.ok => if t.isEmpty then FetchOutcome.empty else FetchOutcome.data t

/-- Outcome of the partition-key discovery step of `query_record_ui`
(src/app.py lines 164-168): error from the except branch, "No data
available" when no dates exist, or the sorted date list. -/
inductive KeysOutcome where
  | error : String → KeysOutcome
  | noData : KeysOutcome
  | keys : List String → KeysOutcome
deriving DecidableEq, Repr

/-- The date-discovery step of `query_record_ui`: scan projecting `date`,
dedup and sort; warn "No data available" when empty. -/
def load_dates (t : Table) (s : StoreResult) : KeysOutcome :=
  match s with
  | StoreResult.err e => KeysOutcome.error e
  | StoreResult.ok =>
    let ds := listPartitionKeys t
    if ds.isEmpty then KeysOutcome.noData else KeysOutcome.keys ds

/-- Outcome of the `get_item` step of `query_record_ui`
(src/app.py lines 176-191): error from the except branch, "No record found"
when the key is absent, or the found record. -/
inductive GetOutcome where
  | error : String → GetOutcome
  | notFound : GetOutcome
  | found : Item → GetOutcome
deriving DecidableEq, Repr

/-- The record-fetch step of `query_record_ui`: `get_item` by full composite
key; a missing item is reported as "No record found" (a warning, not an
error). -/
def get_record (t : Table) (d i : String) (s : StoreResult) : GetOutcome :=
  match s with
  | StoreResult.err e => GetOutcome.error e
  | StoreResult.ok =>
    match getItem t d i with
    | none => GetOutcome.notFound
    | some it => GetOutcome.found it

/-- Effect of `create_table` on the session activity log (src/app.py lines
88-111): nothing is appended on the early already-exists return; one entry
on successful creation; one entry when the except branch runs. -/
def create_table_log (log : List String) (tableExists : Bool)
    (s : StoreResult) (name : String) : List String :=
  if tableExists then log
  else
    match s with
    | StoreResult.ok => log ++ ["Created table " ++ name ++ "."]
    | StoreResult.err e => log ++ ["Create table failed: " ++ e]

/-- Effect of `insert_records` on the session activity log (src/app.py lines
113-133): one entry on success, one entry when the except branch runs. -/
def insert_records_log (log : List String) (s : StoreResult) (n : Nat)
    (name : String) : List String :=
  match s with
  | StoreResult.ok => log ++ ["Inserted " ++ natStr n ++ " into " ++ name ++ "."]
  | StoreResult.err e => log ++ ["Insert failed: " ++ e]

/-- Effect of `fetch_records` on the session activity log (src/app.py lines
135-151): the function never touches `st.session_state.log`, on success or
failure. -/
def fetch_records_log (log : List String) (s : StoreResult) : List String :=
  match s with
  | StoreResult.ok => log
  | StoreResult.err _ => log

/-- Effect of `query_record_ui` on the session activity log (src/app.py lines
153-195): the function never touches `st.session_state.log`, on success or
failure. -/
def query_record_log (log : List String) (s : StoreResult) : List String :=
  match s with
  | StoreResult.ok => log
  | StoreResult.err _ => log

/-- ASCII lower-casing of one character (Python `str.lower` on ASCII). -/
def lowerChar (c : Char) : Char :=
  if 65 ≤ c.toNat ∧ c.toNat ≤ 90 then Char.ofNat (c.toNat + 32) else c

/-- ASCII lower-casing of a string. -/
def lowerStr (s : String) : String := ⟨s.data.map lowerChar⟩

/-- Outcome of the factory-filter step of the refined Query Record workflow. -/
inductive FilterOutcome where
  | mismatch : FilterOutcome
  | pass : Item → FilterOutcome
deriving DecidableEq, Repr

/-- Modelled from the spec: the factory-filter step of the refined Query
Record workflow (the repository's second dashboard file, not present under
src/, whose behavior section 4.3 of the spec describes): after `getRecord`
returns a found record, an empty filter string means no filtering; a
non-empty filter matches exactly when it equals the record's `factoryLabel`
case-insensitively (exact match, not substring). -/
def applyFactoryFilter (filt : String) (it : Item) : FilterOutcome :=
  if filt = "" then FilterOutcome.pass it
  else if lowerStr filt = lowerStr it.factory_name then FilterOutcome.pass it
  else FilterOutcome.mismatch

/-- An attribute value of a stored item: string or number. -/
inductive AttrVal where
  | s : String → AttrVal
  | n : Nat → AttrVal
deriving DecidableEq, Repr

/-- A raw stored item of arbitrary shape: an association list from attribute
names to values. -/
abbrev DynItem := List (String × AttrVal)

/-- Modelled from the spec: the column-projection step of the refined Query
Record workflow (the repository's second dashboard file, not present under
src/): keep exactly the attributes whose name is among the requested
columns; requested columns not present on the item are silently dropped
rather than erroring. -/
def projectItem (cols : List String) (item : DynItem) : DynItem :=
  item.filter (fun kv => cols.contains kv.1)

/-- Splits a character list on the dash character (Python-style split). -/
def splitOnDash : List Char → List (List Char)
  | [] => [[]]
  | c :: rest =>
    match splitOnDash rest with
    | [] => [[]]
    | g :: gs => if c = '-' then [] :: g :: gs else (c :: g) :: gs

/-- Reads a nonempty all-digit character list as a number. -/
def digitsToNat (cs : List Char) : Option Nat :=
  if cs.isEmpty then none
  else if cs.all (fun c => 48 ≤ c.toNat && c.toNat ≤ 57) then
    some (parseDigitsList cs)
  else none

/-- Whether a year is a Gregorian leap year. -/
def isLeapYear (y : Nat) : Bool :=
  (y % 4 == 0 && y % 100 != 0) || y % 400 == 0

/-- Number of days in a month of the Gregorian calendar. -/
def daysInMonth (y m : Nat) : Nat :=
  if m = 2 then (if isLeapYear y then 29 else 28)
  else if m = 4 ∨ m = 6 ∨ m = 9 ∨ m = 11 then 30
  else 31

/-- Whether `(y, m, d)` is a valid Gregorian calendar date. -/
def isValidDate (y m d : Nat) : Bool :=
  1 ≤ m && m ≤ 12 && 1 ≤ d && d ≤ daysInMonth y m

/-- Parses a `"Y-M-D"` string into its numeric components, requiring exactly
three dash-separated all-digit fields. -/
def parseDate (str : String) : Option (Nat × Nat × Nat) :=
  match splitOnDash str.data with
  | [y, m, d] =>
    match digitsToNat y, digitsToNat m, digitsToNat d with
    | some yv, some mv, some dv => some (yv, mv, dv)
    | _, _, _ => none
  | _ => none

/-- Whether a string is a valid calendar date in `"Y-M-D"` form. -/
def isValidDateString (str : String) : Bool :=
  match parseDate str with
  | some (yv, mv, dv) => isValidDate yv mv dv
  | none => false

end App

namespace App

theorem digitChar_toNat : ∀ d, d < 10 → (digitChar d).toNat = 48 + d := by decide

theorem parseDigitsList_append (cs : List Char) (c : Char) :
    parseDigitsList (cs ++ [c]) = parseDigitsList cs * 10 + (c.toNat - 48) := by
  simp [parseDigitsList, List.foldl_append]

theorem parseDigitsList_natDigitsAux :
    ∀ fuel n, n < fuel → parseDigitsList (natDigitsAux fuel n) = n := by
  intro fuel
  induction fuel with
  | zero => intro n h; omega
  | succ f ih =>
    intro n h
    rw [natDigitsAux]
    split
    · next h10 =>
      have hc : (digitChar n).toNat = 48 + n := digitChar_toNat n h10
      simp only [parseDigitsList, List.foldl_cons, List.foldl_nil, hc]
      omega
    · next h10 =>
      rw [parseDigitsList_append]
      have hd : n / 10 < f := by
        have h1 : n / 10 < n := Nat.div_lt_self (by omega) (by omega)
        omega
      have hm : n % 10 < 10 := Nat.mod_lt _ (by omega)
      rw [ih (n / 10) hd, digitChar_toNat (n % 10) hm]
      omega

theorem parseDigitsList_natStr (n : Nat) : parseDigitsList (natStr n).data = n :=
  parseDigitsList_natDigitsAux (n + 1) n (Nat.lt_succ_self n)

theorem natStr_injective : Function.Injective natStr := by
  intro a b h
  have h2 := congrArg (fun str : String => parseDigitsList str.data) h
  simpa [parseDigitsList_natStr] using h2

theorem string_data_append_eq (a b : String) : (a ++ b).data = a.data ++ b.data := rfl

theorem genDate_injective : Function.Injective genDate := by
  intro a b h
  have hdata := congrArg String.data h
  rw [genDate, genDate, string_data_append_eq, string_data_append_eq] at hdata
  have h2 := List.append_cancel_left hdata
  have h3 := congrArg parseDigitsList h2
  rw [parseDigitsList_natStr, parseDigitsList_natStr] at h3
  omega

theorem genItem_date (i : Nat) : (genItem i).date = genDate i := rfl

theorem genItem_id (i : Nat) : (genItem i).id = natStr (i + 1) := rfl

theorem genItem_value (i : Nat) : (genItem i).value = i * 10 := rfl

theorem genItem_factory (i : Nat) :
    (genItem i).factory_name = "Factory_" ++ natStr (i % 3 + 1) := rfl

theorem putItem_genBatch (n : Nat) :
    putItem (genBatch n) (genItem n) = genBatch n ++ [genItem n] := by
  unfold putItem
  congr 1
  apply List.filter_eq_self.mpr
  intro r hr
  rw [genBatch, List.mem_map] at hr
  obtain ⟨j, hj, rfl⟩ := hr
  rw [List.mem_range] at hj
  have hne : genDate j ≠ genDate n := fun hc => absurd (genDate_injective hc) (by omega)
  have hb : ((genItem j).date == (genItem n).date) = false := by
    rw [genItem_date, genItem_date]
    exact beq_eq_false_iff_ne.mpr hne
  simp [hb]

theorem insert_records_table_empty (n : Nat) :
    insert_records_table [] n = genBatch n := by
  induction n with
  | zero => rfl
  | succ m ih =>
    show (List.range (m + 1)).foldl (fun acc i => putItem acc (genItem i)) [] = genBatch (m + 1)
    rw [List.range_succ, List.foldl_append]
    simp only [List.foldl_cons, List.foldl_nil]
    have hm : (List.range m).foldl (fun acc i => putItem acc (genItem i)) [] = genBatch m := ih
    have hb : genBatch (m + 1) = genBatch m ++ [genItem m] := by
      rw [genBatch, genBatch, List.range_succ, List.map_append]
      rfl
    rw [hm, putItem_genBatch, hb]

/-- C1: for every `n ≥ 1` the batch generated by `insert_records(name, n)`
contains exactly `n` records, their `(date, id)` pairs are pairwise distinct,
the record at 0-based index `i` has `value = 10 * i`, and the `factory_name`
label cycles with period 3 over the indices (the three labels of one cycle
being pairwise distinct). -/
theorem C1_generated_batch (n : Nat) (hn : 1 ≤ n) :
    (genBatch n).length = n ∧
    ((genBatch n).map (fun r => (r.date, r.id))).Nodup ∧
    (∀ i, i < n → (genBatch n)[i]? = some (genItem i)) ∧
    (∀ i, (genItem i).value = 10 * i) ∧
    (∀ i, (genItem (i + 3)).factory_name = (genItem i).factory_name) ∧
    (genItem 0).factory_name ≠ (genItem 1).factory_name ∧
    (genItem 1).factory_name ≠ (genItem 2).factory_name ∧
    (genItem 0).factory_name ≠ (genItem 2).factory_name := by
  refine ⟨by simp [genBatch], ?_, ?_, ?_, ?_, by decide, by decide, by decide⟩
  · rw [genBatch, List.map_map]
    apply List.Nodup.map ?_ (List.nodup_range _)
    intro a b h
    simp only [Function.comp, Prod.mk.injEq, genItem_date, genItem_id] at h
    exact genDate_injective h.1
  · intro i hi
    simp [genBatch, List.getElem?_range, hi]
  · intro i
    rw [genItem_value, Nat.mul_comm]
  · intro i
    rw [genItem_factory, genItem_factory]
    have h3 : (i + 3) % 3 = i % 3 := by omega
    rw [h3]

theorem C1_generated_batch_witness : (genBatch 5).length = 5 :=
  (C1_generated_batch 5 (by decide)).1

end App

namespace App

theorem genDate_parse_small :
    ∀ i, i < 21 → parseDate (genDate i) = some (2025, 11, 10 + i) ∧
      isValidDateString (genDate i) = true := by decide

/-- C4 counterexample: the partition key of the record at index 21 (present in
every batch of `n ≥ 22` records) is the string `"2025-11-31"`, which is not a
valid calendar date — the day field is incremented without calendar rollover,
so the generated partition keys are not `n` consecutive valid calendar dates
for every `n`. -/
theorem C4_invalid_date_counterexample :
    genItem 21 ∈ genBatch 22 ∧ (genItem 21).date = "2025-11-31" ∧
    isValidDateString "2025-11-31" = false := by decide

/-- C4 (amended): the partition key of record `i` is `"2025-11-"` followed by
the decimal representation of `10 + i`; for batches of at most 21 records
every partition key parses as the valid calendar date 2025-11-(10+i), so the
keys are consecutive calendar dates advancing by one day per index from the
fixed base date 2025-11-10; the sort key is the 1-based index as a string and
`metric` is index-based. -/
theorem C4_amended_date_keys (n : Nat) (hn : n ≤ 21) :
    (∀ i, i < n → parseDate ((genItem i).date) = some (2025, 11, 10 + i) ∧
      isValidDateString ((genItem i).date) = true) ∧
    (∀ i, (genItem i).date = "2025-11-" ++ natStr (10 + i)) ∧
    (∀ i, (genItem i).id = natStr (i + 1)) ∧
    (∀ i, (genItem i).metric = "Metric_" ++ natStr (i + 1)) := by
  refine ⟨?_, fun i => rfl, fun i => rfl, fun i => rfl⟩
  intro i hi
  exact genDate_parse_small i (by omega)

theorem C4_amended_date_keys_witness :
    parseDate ((genItem 0).date) = some (2025, 11, 10 + 0) ∧
    isValidDateString ((genItem 0).date) = true :=
  (C4_amended_date_keys 21 (by decide)).1 0 (by decide)

/-- C6: end-to-end scenario — creating table "T" in an empty store succeeds,
inserting 5 synthetic records into an empty table yields a table whose scan
returns 5 records, the date of record 3 (1-based) is "2025-11-12", and
`get_item` with key `("2025-11-12", "3")` returns the record whose `value`
is 20. -/
theorem C6_end_to_end :
    create_table [] "T" = (["T"], CreateOutcome.created) ∧
    (scan (insert_records_table [] 5)).length = 5 ∧
    (genItem 2).date = "2025-11-12" ∧
    getItem (insert_records_table [] 5) "2025-11-12" "3" =
      some { date := "2025-11-12", id := "3", factory_name := "Factory_3",
             metric := "Metric_3", value := 20 } := by decide

/-- C7: creating a table whose name is not yet present issues the creation
and records the table once; a second `create_table` with the same name
detects the existing table before issuing creation, reports AlreadyExists,
and leaves the table list unchanged (no creation side effect). -/
theorem C7_create_table_idempotent (tables : List String) (name : String)
    (h : name ∉ tables) :
    (create_table tables name).2 = CreateOutcome.created ∧
    (create_table tables name).1.count name = 1 ∧
    create_table (create_table tables name).1 name =
      ((create_table tables name).1, CreateOutcome.alreadyExists) := by
  rw [create_table, if_neg h]
  refine ⟨rfl, ?_, ?_⟩
  · rw [List.count_append]
    rw [List.count_eq_zero.mpr h]
    simp
  · rw [create_table, if_pos (by simp)]

theorem C7_create_table_idempotent_witness :
    create_table (create_table [] "T").1 "T" =
      ((create_table [] "T").1, CreateOutcome.alreadyExists) :=
  (C7_create_table_idempotent [] "T" (by decide)).2.2

end App

namespace App

/-- C2: in the refined Query Record workflow (factory filter modelled from
the spec), after a found record: the empty filter string applies no
filtering; a non-empty filter passes the record exactly when it equals the
stored `factory_name` case-insensitively (so a filter equal to the stored
label in different letter case matches), and a non-empty filter whose
lower-casing differs from the label's (in particular one equal to a
different label) never matches. -/
theorem C2_factory_filter (filt : String) (it : Item) :
    applyFactoryFilter "" it = FilterOutcome.pass it ∧
    (lowerStr filt = lowerStr it.factory_name →
      applyFactoryFilter filt it = FilterOutcome.pass it) ∧
    (filt ≠ "" → lowerStr filt ≠ lowerStr it.factory_name →
      applyFactoryFilter filt it = FilterOutcome.mismatch) := by
  refine ⟨rfl, ?_, ?_⟩
  · intro h
    by_cases h0 : filt = ""
    · simp [applyFactoryFilter, h0]
    · simp [applyFactoryFilter, h0, h]
  · intro h1 h2
    rw [applyFactoryFilter, if_neg h1, if_neg h2]

theorem C2_factory_filter_witness :
    applyFactoryFilter "factory_1" (genItem 0) = FilterOutcome.pass (genItem 0) ∧
    applyFactoryFilter "Factory_2" (genItem 0) = FilterOutcome.mismatch :=
  ⟨(C2_factory_filter "factory_1" (genItem 0)).2.1 (by decide),
   (C2_factory_filter "Factory_2" (genItem 0)).2.2 (by decide) (by decide)⟩

/-- C3: column projection (modelled from the spec) onto the requested subset
`{date, value}`: an attribute name appears among the keys of the projected
result exactly when it is one of the two requested names and the item
carries it — so the displayed result has no other keys whatever the record's
shape, and a requested column absent from the item is silently dropped. -/
theorem C3_projection (item : DynItem) :
    ∀ k, k ∈ (projectItem ["date", "value"] item).map Prod.fst ↔
      ((k = "date" ∨ k = "value") ∧ k ∈ item.map Prod.fst) := by
  intro k
  rw [projectItem]
  constructor
  · intro hk
    rw [List.mem_map] at hk
    obtain ⟨kv, hkv, rfl⟩ := hk
    rw [List.mem_filter] at hkv
    obtain ⟨hmem, hcols⟩ := hkv
    refine ⟨?_, List.mem_map.mpr ⟨kv, hmem, rfl⟩⟩
    simpa using hcols
  · intro hk
    obtain ⟨hcol, hmem⟩ := hk
    rw [List.mem_map] at hmem
    obtain ⟨kv, hkv, rfl⟩ := hmem
    rw [List.mem_map]
    exact ⟨kv, List.mem_filter.mpr ⟨hkv, by simpa using hcol⟩, rfl⟩

/-- C5 counterexample: `fetch_records` and `query_record_ui` append nothing
to the session activity log even on a successful attempt, and `create_table`
appends nothing on the already-exists path — so not every operation attempt
appends exactly one entry. -/
theorem C5_no_log_counterexample :
    (fetch_records_log [] StoreResult.ok).length = 0 ∧
    (query_record_log [] StoreResult.ok).length = 0 ∧
    (create_table_log [] true StoreResult.ok "T").length = 0 := by decide

/-- C5 (amended): `create_table` appends exactly one log entry on successful
creation and on failure but none on the already-exists early return;
`insert_records` appends exactly one entry on success and on failure;
`fetch_records` and `query_record_ui` never append; and every operation only
extends the log, leaving existing entries unmodified. -/
theorem C5_amended_logging (log : List String) (ex : Bool)
    (s1 s2 s3 s4 : StoreResult) (n : Nat) (name : String) :
    (∃ tl, create_table_log log ex s1 name = log ++ tl ∧
      tl.length = if ex then 0 else 1) ∧
    (∃ tl, insert_records_log log s2 n name = log ++ tl ∧ tl.length = 1) ∧
    fetch_records_log log s3 = log ∧
    query_record_log log s4 = log := by
  refine ⟨?_, ?_, ?_, ?_⟩
  · cases ex with
    | true => exact ⟨[], by simp [create_table_log], rfl⟩
    | false =>
      cases s1 with
      | ok =>
        exact ⟨["Created table " ++ name ++ "."], by simp [create_table_log], rfl⟩
      | err e =>
        exact ⟨["Create table failed: " ++ e], by simp [create_table_log], rfl⟩
  · cases s2 with
    | ok =>
      exact ⟨["Inserted " ++ natStr n ++ " into " ++ name ++ "."],
        by simp [insert_records_log], rfl⟩
    | err e => exact ⟨["Insert failed: " ++ e], by simp [insert_records_log], rfl⟩
  · cases s3 <;> rfl
  · cases s4 <;> rfl

/-- C8: absence of data is a soft outcome distinct from an error on every
read path: the partition-key list of an empty table is empty and the
workflow reports "no data" (not an error); the sort-key list of a partition
key not present in the table is empty; a scan of an empty table reports
"empty" (not an error); and `get_item` on an absent full composite key
reports "not found" (not an error). -/
theorem C8_soft_absence (t : Table) (d i : String)
    (hd : d ∉ t.map (fun r => r.date)) (hk : getItem t d i = none) :
    listPartitionKeys ([] : Table) = [] ∧
    load_dates ([] : Table) StoreResult.ok = KeysOutcome.noData ∧
    fetch_records ([] : Table) StoreResult.ok = FetchOutcome.empty ∧
    (∀ e, FetchOutcome.empty ≠ FetchOutcome.error e) ∧
    listSortKeys t d = [] ∧
    get_record t d i StoreResult.ok = GetOutcome.notFound ∧
    (∀ e, GetOutcome.notFound ≠ GetOutcome.error e) := by
  refine ⟨rfl, rfl, rfl, ?_, ?_, ?_, ?_⟩
  · intro e h
    cases h
  · rw [listSortKeys]
    have hnil : t.filter (fun r => r.date == d) = [] := by
      rw [List.filter_eq_nil_iff]
      intro r hr
      simp only [beq_iff_eq]
      intro hEq
      exact hd (List.mem_map.mpr ⟨r, hr, hEq⟩)
    rw [hnil]
    rfl
  · simp [get_record, hk]
  · intro e h
    cases h

theorem C8_soft_absence_witness :
    get_record [] "2025-11-10" "1" StoreResult.ok = GetOutcome.notFound :=
  (C8_soft_absence [] "2025-11-10" "1" (by decide) (by decide)).2.2.2.2.2.1

/-- C9: `listPartitionKeys` returns the distinct partition-key values of the
table, duplicates removed (no duplicates in the output, membership exactly
the `date` values present), sorted in ascending lexicographic string
order. -/
theorem C9_list_partition_keys (t : Table) :
    List.Sorted (fun a b : String => a ≤ b) (listPartitionKeys t) ∧
    (listPartitionKeys t).Nodup ∧
    (∀ s, s ∈ listPartitionKeys t ↔ s ∈ t.map (fun r => r.date)) := by
  refine ⟨List.sorted_insertionSort _ _, ?_, ?_⟩
  · exact ((List.perm_insertionSort _ _).nodup_iff).mpr (List.nodup_dedup _)
  · intro s
    unfold listPartitionKeys
    rw [(List.perm_insertionSort _ _).mem_iff, List.mem_dedup]

/-- C10: each generated partition key occurs in exactly one of the `n`
generated records: the occurrence count of `genDate i` among the batch's
dates is 1, the records of the batch under that date are exactly the one
record of index `i`, and after inserting the batch into an empty table the
sort-key list under that date is the one-element list of record `i`'s id. -/
theorem C10_one_record_per_partition (n i : Nat) (hi : i < n) :
    ((genBatch n).map (fun r => r.date)).count (genDate i) = 1 ∧
    (genBatch n).filter (fun r => r.date == genDate i) = [genItem i] ∧
    listSortKeys (insert_records_table [] n) (genDate i) = [natStr (i + 1)] := by
  have hfilter : (genBatch n).filter (fun r => r.date == genDate i) = [genItem i] := by
    rw [genBatch, List.filter_map]
    have hpred : ((fun r : Item => r.date == genDate i) ∘ genItem) =
        (fun j => j == i) := by
      funext j
      simp only [Function.comp, genItem_date]
      by_cases h : j = i
      · subst h; simp
      · have hne : genDate j ≠ genDate i := fun hc => h (genDate_injective hc)
        simp [hne, h]
    rw [hpred, List.filter_beq]
    rw [List.count_eq_one_of_mem (List.nodup_range n) (List.mem_range.mpr hi)]
    rfl
  refine ⟨?_, hfilter, ?_⟩
  · have hmap : (genBatch n).map (fun r => r.date) = (List.range n).map genDate := by
      rw [genBatch, List.map_map]
      rfl
    rw [hmap]
    exact List.count_eq_one_of_mem
      (List.Nodup.map genDate_injective (List.nodup_range n))
      (List.mem_map.mpr ⟨i, List.mem_range.mpr hi, rfl⟩)
  · rw [insert_records_table_empty, listSortKeys, hfilter]
    rfl

theorem C10_one_record_per_partition_witness :
    listSortKeys (insert_records_table [] 4) (genDate 2) = [natStr 3] :=
  (C10_one_record_per_partition 4 2 (by decide)).2.2

end App
